import Mathlib

/-!
Shallow embedding of src/oplist_agent/domain/models.py: the domain models of
the surgical op-list agent (Artifact, EvidenceRef, ItemState, CaseState) as
pydantic BaseModel subclasses, together with the relevant pydantic v2
validation semantics that the source relies on:

- field constraints (Field(ge=...)) are checked per field and all field
  errors are collected;
- a model_validator(mode="after") runs only when every field validated;
- ConfigDict(extra="forbid") rejects unknown input keys;
- none of the models sets frozen=True or validate_assignment=True in its
  ConfigDict, so plain attribute assignment mutates a constructed model
  without re-validation (pydantic v2 defaults);
- a dict-typed field (dict[ItemKey, ItemState]) coerces each input key
  through the ItemKey enumeration and fails on a key outside it, but
  performs no completeness check on the key set.

Identifiers (UUID) are modelled as Nat; datetimes as an instant plus an
optional timezone (tzinfo), mirroring naive vs aware Python datetimes.
-/

set_option autoImplicit false

deriving instance DecidableEq for Except

namespace OpListAgent

/-- UUID values are opaque identifiers; Nat suffices for the model. -/
abbrev UUID := Nat

/-- A Python timezone object: timezone.utc or a fixed offset. -/
inductive Tz where
  | utc
  | fixedOffset (minutes : Int)
deriving DecidableEq, Repr

/-- A Python datetime: an instant plus tzinfo (none = naive datetime). -/
structure PyDatetime where
  instant : Int
  tzinfo : Option Tz
deriving DecidableEq, Repr

/-- models.py line 24: utc_now returns datetime.now(timezone.utc), i.e. the
current clock reading tagged with tzinfo = timezone.utc. The clock reading
is a parameter of the model. -/
def utc_now (clock : Int) : PyDatetime :=
  { instant := clock, tzinfo := some Tz.utc }

/-- models.py line 29: ItemKey(str, Enum), the closed set of checklist item
identifiers. -/
inductive ItemKey where
  | allergies
  | blood_loss_risk
  | number_bunits_available
  | abx_prophylaxis_timing
deriving DecidableEq, Repr

/-- The lowercase string token of each ItemKey member (its enum value). -/
def ItemKey.toToken : ItemKey → String
  | .allergies => "allergies"
  | .blood_loss_risk => "blood_loss_risk"
  | .number_bunits_available => "number_bunits_available"
  | .abx_prophylaxis_timing => "abx_prophylaxis_timing"

/-- Coercion of a string to an ItemKey member by enum value, as pydantic
performs for dict keys typed ItemKey; none when the string is not one of
the four closed tokens. -/
def ItemKey.fromString (s : String) : Option ItemKey :=
  if s = "allergies" then some .allergies
  else if s = "blood_loss_risk" then some .blood_loss_risk
  else if s = "number_bunits_available" then some .number_bunits_available
  else if s = "abx_prophylaxis_timing" then some .abx_prophylaxis_timing
  else none

/-- models.py line 38: ItemStatus(str, Enum). -/
inductive ItemStatus where
  | pending
  | confirmed
  | unknown
  | conflict
deriving DecidableEq, Repr

/-- One pydantic validation error: the location (field) it is reported
against and its message. -/
structure ValError where
  loc : String
  msg : String
deriving DecidableEq, Repr

/-- Message of a pydantic greater-than-or-equal field constraint failure. -/
def geMsg (limit : Int) : String :=
  "Input should be greater than or equal to " ++ toString limit

/-- Message of a pydantic extra="forbid" rejection of an unknown key. -/
def extraMsg : String := "Extra inputs are not permitted"

/-- Message reported for a dict key that is not a member of the ItemKey
enumeration (pydantic enum error, phrasing abbreviated). -/
def itemKeyEnumMsg : String := "Input should be a valid ItemKey token"

/-- models.py lines 54-71: Artifact. -/
structure Artifact where
  artifact_id : UUID
  filename : String
  mime_type : String
  included : Bool
  created_at : PyDatetime
deriving DecidableEq, Repr

/-- The declared field set of Artifact (lines 62-71). -/
def Artifact.fieldNames : List String :=
  ["artifact_id", "filename", "mime_type", "included", "created_at"]

/-- The methods defined in the Artifact class body (lines 54-71): it
declares model_config and five fields and defines no method. -/
def Artifact.methodNames : List String := []

/-- Artifact.model_config (line 60) is ConfigDict(extra="forbid"); frozen is
not set, so it keeps its pydantic default False and attribute assignment is
permitted. -/
def Artifact.frozen : Bool := false

/-- Artifact construction (pydantic generated __init__): included defaults
to True (line 65), created_at defaults to utc_now() (line 68), evaluated
against the current clock when not supplied. No validators run. -/
def Artifact.construct (aid : UUID) (fn mt : String) (included : Option Bool)
    (created_at : Option PyDatetime) (clock : Int) : Artifact :=
  { artifact_id := aid, filename := fn, mime_type := mt,
    included := included.getD true,
    created_at := created_at.getD (utc_now clock) }

/-- Python attribute assignment a.included = b, permitted because Artifact
is not frozen and not re-validated because validate_assignment is not set. -/
def Artifact.setIncluded (a : Artifact) (b : Bool) : Artifact :=
  { a with included := b }

/-- models.py lines 74-106: EvidenceRef. -/
structure EvidenceRef where
  artifact_id : UUID
  evidence_id : UUID
  page : Int
  chunk_id : UUID
  start_offset : Int
  end_offset : Int
deriving DecidableEq, Repr

/-- The declared field set of EvidenceRef (lines 83-96). -/
def EvidenceRef.fieldNames : List String :=
  ["artifact_id", "evidence_id", "page", "chunk_id", "start_offset", "end_offset"]

/-- EvidenceRef.model_config (line 81) is ConfigDict(extra="forbid"); frozen
keeps its pydantic default False. -/
def EvidenceRef.frozen : Bool := false

/-- The per-field constraint errors of EvidenceRef: page has ge=1 (line 87),
start_offset ge=0 (line 91), end_offset ge=0 (line 94). Pydantic evaluates
every field constraint and collects all failures. -/
def EvidenceRef.fieldErrors (page s e : Int) : List ValError :=
  (if page < 1 then [{ loc := "page", msg := geMsg 1 }] else []) ++
  (if s < 0 then [{ loc := "start_offset", msg := geMsg 0 }] else []) ++
  (if e < 0 then [{ loc := "end_offset", msg := geMsg 0 }] else [])

/-- The exact message of the ValueError raised by check_offset
(lines 101-105). -/
def spanMsg (e s : Int) : String :=
  "end_offset (" ++ toString e ++ ") must be > start_offset (" ++ toString s ++ ")"

/-- EvidenceRef construction: pydantic validates every field, collecting all
constraint failures; only when no field failed does the
model_validator(mode="after") check_offset (lines 98-106) run, raising the
span ValueError when end_offset <= start_offset, else returning the model. -/
def EvidenceRef.validate (aid eid : UUID) (page : Int) (chid : UUID)
    (s e : Int) : Except (List ValError) EvidenceRef :=
  match EvidenceRef.fieldErrors page s e with
  | [] =>
    if e ≤ s then
      Except.error [{ loc := "", msg := spanMsg e s }]
    else
      Except.ok { artifact_id := aid, evidence_id := eid, page := page,
                  chunk_id := chid, start_offset := s, end_offset := e }
  | err :: rest => Except.error (err :: rest)

/-- Python attribute assignment r.end_offset = v, permitted because
EvidenceRef is not frozen; check_offset does not re-run because
validate_assignment is not set. -/
def EvidenceRef.setEndOffset (r : EvidenceRef) (v : Int) : EvidenceRef :=
  { r with end_offset := v }

/-- models.py lines 109-120: ItemState. -/
structure ItemState where
  status : ItemStatus
  evidence_refs : List EvidenceRef
deriving DecidableEq, Repr

/-- The declared field set of ItemState (lines 114-120). -/
def ItemState.fieldNames : List String := ["status", "evidence_refs"]

/-- ItemState() with no arguments: status defaults to pending (line 114),
evidence_refs to an empty list (line 117). -/
def ItemState.mkDefault : ItemState :=
  { status := ItemStatus.pending, evidence_refs := [] }

/-- models.py lines 123-130: default_items, a fresh fully-populated item
map for a new case, as an association list in insertion order. -/
def default_items : List (ItemKey × ItemState) :=
  [(ItemKey.allergies, ItemState.mkDefault),
   (ItemKey.blood_loss_risk, ItemState.mkDefault),
   (ItemKey.number_bunits_available, ItemState.mkDefault),
   (ItemKey.abx_prophylaxis_timing, ItemState.mkDefault)]

/-- models.py lines 133-147: CaseState. The items dict is modelled as an
association list keyed by ItemKey. -/
structure CaseState where
  case_id : UUID
  artifacts : List Artifact
  items : List (ItemKey × ItemState)
deriving DecidableEq, Repr

/-- The declared field set of CaseState (lines 141-147). -/
def CaseState.fieldNames : List String := ["case_id", "artifacts", "items"]

/-- CaseState.model_config (line 139) is ConfigDict(extra="forbid"). -/
def CaseState.frozen : Bool := false

/-- The errors pydantic reports for the keys of an input items mapping
(string keys, as in a deserialized document): one enum error per key that
is not an ItemKey token. Pydantic has no completeness check on the key
set of a dict-typed field. -/
def CaseState.itemKeyErrors (kvs : List (String × ItemState)) : List ValError :=
  kvs.filterMap (fun p =>
    match ItemKey.fromString p.1 with
    | none => some { loc := "items." ++ p.1, msg := itemKeyEnumMsg }
    | some _ => none)

/-- The coerced items mapping: each string key replaced by the ItemKey
member it names; entries whose key is not a token are dropped (they can
only occur when itemKeyErrors is nonempty and validation fails anyway). -/
def CaseState.coerceItems (kvs : List (String × ItemState)) : List (ItemKey × ItemState) :=
  kvs.filterMap (fun p => (ItemKey.fromString p.1).map (fun k => (k, p.2)))

/-- Validation of an explicitly supplied items mapping: fails iff some key
is outside the ItemKey enumeration; otherwise accepts the mapping as
supplied, with keys coerced. No key-set completeness check exists. -/
def CaseState.validateItems (kvs : List (String × ItemState)) :
    Except (List ValError) (List (ItemKey × ItemState)) :=
  match CaseState.itemKeyErrors kvs with
  | [] => Except.ok (CaseState.coerceItems kvs)
  | err :: rest => Except.error (err :: rest)

/-- CaseState construction: when items is not supplied the default_factory
default_items (line 146) populates it; when supplied (also the
deserialization path, string keys) the mapping is validated key by key. -/
def CaseState.validate (cid : UUID) (arts : List Artifact)
    (items : Option (List (String × ItemState))) :
    Except (List ValError) CaseState :=
  match items with
  | none => Except.ok { case_id := cid, artifacts := arts, items := default_items }
  | some kvs =>
    (CaseState.validateItems kvs).map
      (fun its => { case_id := cid, artifacts := arts, items := its })

/-- The four models of the layer. -/
inductive ModelKind where
  | artifact
  | evidenceRef
  | itemState
  | caseState
deriving DecidableEq, Repr

/-- The declared field set of each model. -/
def ModelKind.fieldNames : ModelKind → List String
  | .artifact => Artifact.fieldNames
  | .evidenceRef => EvidenceRef.fieldNames
  | .itemState => ItemState.fieldNames
  | .caseState => CaseState.fieldNames

/-- Each model sets ConfigDict(extra="forbid") in its class body
(lines 60, 81, 112, 139). -/
def ModelKind.extraForbid : ModelKind → Bool
  | .artifact => true
  | .evidenceRef => true
  | .itemState => true
  | .caseState => true

/-- The extra-key errors pydantic reports for a set of supplied input keys
under extra="forbid": one per key outside the declared field set. -/
def extraErrors (m : ModelKind) (keys : List String) : List ValError :=
  if m.extraForbid then
    keys.filterMap (fun k =>
      if k ∈ m.fieldNames then none else some { loc := k, msg := extraMsg })
  else []

/-- The key-acceptance stage of constructing a model from keyed input:
under extra="forbid" an unknown key is a validation error. -/
def validateExtra (m : ModelKind) (keys : List String) :
    Except (List ValError) Unit :=
  match extraErrors m keys with
  | [] => Except.ok ()
  | err :: rest => Except.error (err :: rest)

/-! Helper lemmas about items-map validation, shared by several theorems. -/

/-- The key errors of an input items mapping are empty exactly when every
key is an ItemKey token. -/
theorem CaseState.itemKeyErrors_eq_nil (kvs : List (String × ItemState)) :
    CaseState.itemKeyErrors kvs = [] ↔
      ∀ p ∈ kvs, (ItemKey.fromString p.1).isSome = true := by
  unfold CaseState.itemKeyErrors
  rw [List.filterMap_eq_nil_iff]
  constructor
  · intro h p hp
    have hh := h p hp
    cases hfs : ItemKey.fromString p.1 with
    | none => rw [hfs] at hh; simp at hh
    | some k => simp [hfs]
  · intro h p hp
    have hh := h p hp
    cases hfs : ItemKey.fromString p.1 with
    | none => rw [hfs] at hh; simp at hh
    | some k => simp [hfs]

/-- When every key of the supplied items mapping is valid, CaseState
construction succeeds with the coerced mapping. -/
theorem CaseState.validate_some_of_nil (cid : UUID) (arts : List Artifact)
    (kvs : List (String × ItemState))
    (h : CaseState.itemKeyErrors kvs = []) :
    CaseState.validate cid arts (some kvs) =
      Except.ok { case_id := cid, artifacts := arts,
                  items := CaseState.coerceItems kvs } := by
  simp [CaseState.validate, CaseState.validateItems, Except.map, h]

/-- When some key of the supplied items mapping is invalid, CaseState
construction fails with exactly the key errors. -/
theorem CaseState.validate_some_of_cons (cid : UUID) (arts : List Artifact)
    (kvs : List (String × ItemState)) (a : ValError) (t : List ValError)
    (h : CaseState.itemKeyErrors kvs = a :: t) :
    CaseState.validate cid arts (some kvs) = Except.error (a :: t) := by
  simp [CaseState.validate, CaseState.validateItems, Except.map, h]

/-- When every key is valid, the coerced mapping is the supplied mapping
entry by entry, each key replaced by the ItemKey member it names. -/
theorem CaseState.coerceItems_forall2 (kvs : List (String × ItemState))
    (h : ∀ p ∈ kvs, (ItemKey.fromString p.1).isSome = true) :
    List.Forall₂ (fun (p : String × ItemState) (q : ItemKey × ItemState) =>
      ItemKey.fromString p.1 = some q.1 ∧ p.2 = q.2)
      kvs (CaseState.coerceItems kvs) := by
  induction kvs with
  | nil => exact List.Forall₂.nil
  | cons p rest ih =>
    have hp := h p (by simp)
    cases hfs : ItemKey.fromString p.1 with
    | none => rw [hfs] at hp; simp at hp
    | some k =>
      have hc : CaseState.coerceItems (p :: rest) =
          (k, p.2) :: CaseState.coerceItems rest := by
        simp [CaseState.coerceItems, List.filterMap_cons, hfs]
      rw [hc]
      exact List.Forall₂.cons ⟨hfs, rfl⟩
        (ih (fun q hq => h q (List.mem_cons_of_mem p hq)))

/-! Theorems settling the claims. -/

/-- Claim C3: a CaseState constructed without an explicit items map has
exactly one entry per ItemKey of the closed set, in the declared order,
each a default ItemState with status pending and no evidence refs. -/
theorem C3_default_items_complete (cid : UUID) (arts : List Artifact) :
    CaseState.validate cid arts none =
      Except.ok { case_id := cid, artifacts := arts, items := default_items } ∧
    default_items.map Prod.fst =
      [ItemKey.allergies, ItemKey.blood_loss_risk,
       ItemKey.number_bunits_available, ItemKey.abx_prophylaxis_timing] ∧
    default_items.map Prod.snd =
      [ItemState.mkDefault, ItemState.mkDefault,
       ItemState.mkDefault, ItemState.mkDefault] ∧
    ItemState.mkDefault = { status := ItemStatus.pending, evidence_refs := [] } :=
  ⟨rfl, by decide, by decide, rfl⟩

/-- Claim C4: for e > s ≥ 0 and page ≥ 1 and any identifiers, EvidenceRef
construction succeeds and every field equals the supplied value. -/
theorem C4_roundtrip (aid eid : UUID) (page : Int) (chid : UUID) (s e : Int)
    (hpage : 1 ≤ page) (hs : 0 ≤ s) (hlt : s < e) :
    EvidenceRef.validate aid eid page chid s e =
      Except.ok { artifact_id := aid, evidence_id := eid, page := page,
                  chunk_id := chid, start_offset := s, end_offset := e } := by
  have h1 : ¬ page < 1 := by omega
  have h2 : ¬ s < 0 := by omega
  have h3 : ¬ e < 0 := by omega
  have h4 : ¬ e ≤ s := by omega
  simp [EvidenceRef.validate, EvidenceRef.fieldErrors, h1, h2, h3, h4]

/-- Witness for C4 at the example of the test suite: page 1, span 10..20. -/
theorem C4_witness :
    EvidenceRef.validate 0 1 1 2 10 20 =
      Except.ok { artifact_id := 0, evidence_id := 1, page := 1,
                  chunk_id := 2, start_offset := 10, end_offset := 20 } :=
  C4_roundtrip 0 1 1 2 10 20 (by decide) (by decide) (by decide)

/-- Claim C7: an Artifact constructed without an explicit created_at gets a
timezone-aware timestamp whose timezone is UTC, whatever the clock reads
and whatever the other arguments are. -/
theorem C7_created_at_utc (aid : UUID) (fn mt : String) (inc : Option Bool)
    (clock : Int) :
    (Artifact.construct aid fn mt inc none clock).created_at.tzinfo =
      some Tz.utc :=
  rfl

/-- Claim C1, counterexample: an explicitly supplied items map holding only
the allergies entry — missing the other three ItemKeys — is accepted
unchanged by CaseState construction, not rejected and not corrected. -/
theorem C1_partial_items_accepted :
    CaseState.validate 0 [] (some [("allergies", ItemState.mkDefault)]) =
      Except.ok { case_id := 0, artifacts := [],
                  items := [(ItemKey.allergies, ItemState.mkDefault)] } ∧
    ItemKey.blood_loss_risk ∉
      ([(ItemKey.allergies, ItemState.mkDefault)].map Prod.fst) := by
  constructor
  · decide
  · decide

/-- Claim C1 as amended: an explicitly supplied items map containing a key
outside the closed ItemKey set makes CaseState construction fail with a
typed error; but a map merely missing keys of the closed set is accepted
exactly as supplied (no completeness check runs on explicit items). -/
theorem C1_explicit_items_validation (cid : UUID) (arts : List Artifact)
    (kvs : List (String × ItemState)) :
    ((∃ p ∈ kvs, ItemKey.fromString p.1 = none) →
      ∃ errs, CaseState.validate cid arts (some kvs) = Except.error errs) ∧
    ((∀ p ∈ kvs, (ItemKey.fromString p.1).isSome = true) →
      CaseState.validate cid arts (some kvs) =
        Except.ok { case_id := cid, artifacts := arts,
                    items := CaseState.coerceItems kvs }) := by
  constructor
  · rintro ⟨p, hp, hnone⟩
    cases hee : CaseState.itemKeyErrors kvs with
    | nil =>
      have hall := (CaseState.itemKeyErrors_eq_nil kvs).mp hee p hp
      rw [hnone] at hall
      simp at hall
    | cons a t =>
      exact ⟨a :: t, CaseState.validate_some_of_cons cid arts kvs a t hee⟩
  · intro hall
    exact CaseState.validate_some_of_nil cid arts kvs
      ((CaseState.itemKeyErrors_eq_nil kvs).mpr hall)

/-- Witness for C1: the unknown key bogus makes construction fail. -/
theorem C1_witness :
    ∃ errs, CaseState.validate 0 []
      (some [("bogus", ItemState.mkDefault)]) = Except.error errs :=
  (C1_explicit_items_validation 0 [] [("bogus", ItemState.mkDefault)]).1
    ⟨("bogus", ItemState.mkDefault), by decide, by decide⟩

/-- Claim C2, counterexample: at start_offset = -1, end_offset = -1 (so
e ≤ s), construction fails, but with the two ge-0 field errors; the span
message is not the reported message, because the after-validator never
runs once a field constraint failed. -/
theorem C2_negative_offsets_message :
    EvidenceRef.validate 0 1 1 2 (-1) (-1) =
      Except.error [{ loc := "start_offset", msg := geMsg 0 },
                    { loc := "end_offset", msg := geMsg 0 }] ∧
    geMsg 0 ≠ spanMsg (-1) (-1) := by
  constructor
  · decide
  · decide

/-- Claim C2 as amended: for 0 ≤ s, 0 ≤ e, e ≤ s and a valid page, the
construction failure carries exactly the message
end_offset (e) must be > start_offset (s); for negative offsets the
construction also fails but with field range errors instead. -/
theorem C2_span_message (aid eid : UUID) (page : Int) (chid : UUID)
    (s e : Int) (hpage : 1 ≤ page) (hs : 0 ≤ s) (he : 0 ≤ e) (hle : e ≤ s) :
    EvidenceRef.validate aid eid page chid s e =
      Except.error [{ loc := "", msg := spanMsg e s }] := by
  have h1 : ¬ page < 1 := by omega
  have h2 : ¬ s < 0 := by omega
  have h3 : ¬ e < 0 := by omega
  simp [EvidenceRef.validate, EvidenceRef.fieldErrors, h1, h2, h3, hle]

/-- Witness for C2 at the example of the test suite, with the message
spelled out literally. -/
theorem C2_witness :
    EvidenceRef.validate 0 1 1 2 30 20 =
      Except.error
        [{ loc := "", msg := "end_offset (20) must be > start_offset (30)" }] := by
  have h := C2_span_message 0 1 1 2 30 20 (by decide) (by decide) (by decide)
    (by decide)
  exact h.trans (by decide)

/-- Claim C5, counterexample: a successfully constructed EvidenceRef is not
immutable — the model is not frozen, so assigning end_offset afterwards is
permitted, is not re-validated, and breaks the span invariant. -/
theorem C5_not_frozen_mutation :
    EvidenceRef.validate 0 1 1 2 10 20 =
      Except.ok { artifact_id := 0, evidence_id := 1, page := 1,
                  chunk_id := 2, start_offset := 10, end_offset := 20 } ∧
    EvidenceRef.frozen = false ∧
    ¬ (EvidenceRef.setEndOffset
        { artifact_id := 0, evidence_id := 1, page := 1, chunk_id := 2,
          start_offset := 10, end_offset := 20 } 5).start_offset <
      (EvidenceRef.setEndOffset
        { artifact_id := 0, evidence_id := 1, page := 1, chunk_id := 2,
          start_offset := 10, end_offset := 20 } 5).end_offset := by
  refine ⟨by decide, rfl, by decide⟩

/-- Claim C5 as amended: the span invariant end_offset > start_offset holds
of every successfully constructed EvidenceRef at construction time (but
the model is not frozen, so later field assignment can violate it). -/
theorem C5_span_invariant_at_construction (aid eid : UUID) (page : Int)
    (chid : UUID) (s e : Int) (r : EvidenceRef)
    (h : EvidenceRef.validate aid eid page chid s e = Except.ok r) :
    r.start_offset < r.end_offset := by
  unfold EvidenceRef.validate at h
  split at h
  · split at h
    · exact Except.noConfusion h
    · injection h with h2
      subst h2
      show s < e
      omega
  · exact Except.noConfusion h

/-- Witness for C5: the constructed reference with span 10..20 satisfies
the invariant. -/
theorem C5_witness :
    ({ artifact_id := 0, evidence_id := 1, page := 1, chunk_id := 2,
       start_offset := 10, end_offset := 20 } : EvidenceRef).start_offset <
    ({ artifact_id := 0, evidence_id := 1, page := 1, chunk_id := 2,
       start_offset := 10, end_offset := 20 } : EvidenceRef).end_offset :=
  C5_span_invariant_at_construction 0 1 1 2 10 20 _ (by decide)

/-- Claim C6, counterexample: an input violating both the page rule
(page = 0) and the span rule (30 ≥ 20) reports only the page range error;
the span message is hidden because the after-validator does not run once
a field constraint failed. -/
theorem C6_span_message_hidden :
    EvidenceRef.validate 0 1 0 2 30 20 =
      Except.error [{ loc := "page", msg := geMsg 1 }] ∧
    geMsg 1 ≠ spanMsg 20 30 := by
  constructor
  · decide
  · decide

/-- Claim C6 as amended: the three per-field range checks are evaluated
independently — an input violating all of them reports all three failures
together — but the cross-field span check runs only when every field
check passed, so its message can be hidden by a field failure. -/
theorem C6_field_checks_independent (aid eid : UUID) (page : Int)
    (chid : UUID) (s e : Int) (hpage : page < 1) (hs : s < 0) (he : e < 0) :
    EvidenceRef.validate aid eid page chid s e =
      Except.error [{ loc := "page", msg := geMsg 1 },
                    { loc := "start_offset", msg := geMsg 0 },
                    { loc := "end_offset", msg := geMsg 0 }] := by
  simp [EvidenceRef.validate, EvidenceRef.fieldErrors, hpage, hs, he]

/-- Witness for C6: page 0 and both offsets negative report all three
field errors. -/
theorem C6_witness :
    EvidenceRef.validate 0 1 0 2 (-1) (-2) =
      Except.error [{ loc := "page", msg := geMsg 1 },
                    { loc := "start_offset", msg := geMsg 0 },
                    { loc := "end_offset", msg := geMsg 0 }] :=
  C6_field_checks_independent 0 1 0 2 (-1) (-2) (by decide) (by decide)
    (by decide)

/-- Claim C8, counterexample: the Artifact class body defines no method at
all, in particular none named set_included; toggling goes through plain
attribute assignment. -/
theorem C8_no_set_included_method :
    "set_included" ∉ Artifact.methodNames := by
  decide

/-- Claim C8 as amended: Artifact has no set_included method, but included
is a mutable field (the model is not frozen) and assigning it is
idempotent and leaves artifact_id, filename, mime_type and created_at
unchanged. -/
theorem C8_included_assignment_frame (a : Artifact) (b : Bool) :
    Artifact.frozen = false ∧
    Artifact.setIncluded (Artifact.setIncluded a b) b =
      Artifact.setIncluded a b ∧
    (Artifact.setIncluded a b).included = b ∧
    (Artifact.setIncluded a b).artifact_id = a.artifact_id ∧
    (Artifact.setIncluded a b).filename = a.filename ∧
    (Artifact.setIncluded a b).mime_type = a.mime_type ∧
    (Artifact.setIncluded a b).created_at = a.created_at :=
  ⟨rfl, rfl, rfl, rfl, rfl, rfl, rfl⟩

/-- Claim C9: every model of the layer sets extra="forbid", so construction
from keyed input holding a key outside the declared field set fails, with
an error naming the unknown key. -/
theorem C9_extra_forbidden (m : ModelKind) (keys : List String) (k : String)
    (hk : k ∈ keys) (hout : k ∉ m.fieldNames) :
    (∃ errs, validateExtra m keys = Except.error errs) ∧
    { loc := k, msg := extraMsg } ∈ extraErrors m keys := by
  have hf : m.extraForbid = true := by cases m <;> rfl
  have hmem : ({ loc := k, msg := extraMsg } : ValError) ∈ extraErrors m keys := by
    unfold extraErrors
    rw [hf]
    simp only [if_true, List.mem_filterMap]
    exact ⟨k, hk, by rw [if_neg hout]⟩
  refine ⟨?_, hmem⟩
  cases hee : extraErrors m keys with
  | nil => rw [hee] at hmem; exact absurd hmem (List.not_mem_nil _)
  | cons a t => exact ⟨a :: t, by simp [validateExtra, hee]⟩

/-- Witness for C9: constructing an Artifact with the unknown key bogus
fails. -/
theorem C9_witness :
    (∃ errs, validateExtra ModelKind.artifact ["artifact_id", "bogus"] =
      Except.error errs) ∧
    { loc := "bogus", msg := extraMsg } ∈
      extraErrors ModelKind.artifact ["artifact_id", "bogus"] :=
  C9_extra_forbidden ModelKind.artifact ["artifact_id", "bogus"] "bogus"
    (by decide) (by decide)

/-- Claim C10: CaseState construction accepts an items map keyed by the
lowercase string tokens, coercing each key to the corresponding ItemKey
member (so the resulting items map is keyed by ItemKey); a string key
outside the four closed tokens makes construction fail. -/
theorem C10_items_key_coercion (cid : UUID) (arts : List Artifact)
    (kvs : List (String × ItemState)) :
    ((∀ p ∈ kvs, (ItemKey.fromString p.1).isSome = true) →
      ∃ st, CaseState.validate cid arts (some kvs) = Except.ok st ∧
        List.Forall₂ (fun (p : String × ItemState) (q : ItemKey × ItemState) =>
          ItemKey.fromString p.1 = some q.1 ∧ p.2 = q.2) kvs st.items) ∧
    ((∃ p ∈ kvs, ItemKey.fromString p.1 = none) →
      ∃ errs, CaseState.validate cid arts (some kvs) = Except.error errs) ∧
    ItemKey.fromString "allergies" = some ItemKey.allergies ∧
    ItemKey.fromString "blood_loss_risk" = some ItemKey.blood_loss_risk ∧
    ItemKey.fromString "number_bunits_available" =
      some ItemKey.number_bunits_available ∧
    ItemKey.fromString "abx_prophylaxis_timing" =
      some ItemKey.abx_prophylaxis_timing ∧
    (∀ s : String, ItemKey.fromString s ≠ none →
      s = "allergies" ∨ s = "blood_loss_risk" ∨
      s = "number_bunits_available" ∨ s = "abx_prophylaxis_timing") := by
  refine ⟨?_, ?_, by decide, by decide, by decide, by decide, ?_⟩
  · intro hall
    refine ⟨{ case_id := cid, artifacts := arts,
              items := CaseState.coerceItems kvs }, ?_, ?_⟩
    · exact CaseState.validate_some_of_nil cid arts kvs
        ((CaseState.itemKeyErrors_eq_nil kvs).mpr hall)
    · exact CaseState.coerceItems_forall2 kvs hall
  · rintro ⟨p, hp, hnone⟩
    cases hee : CaseState.itemKeyErrors kvs with
    | nil =>
      have hall := (CaseState.itemKeyErrors_eq_nil kvs).mp hee p hp
      rw [hnone] at hall
      simp at hall
    | cons a t =>
      exact ⟨a :: t, CaseState.validate_some_of_cons cid arts kvs a t hee⟩
  · intro s hs
    unfold ItemKey.fromString at hs
    split_ifs at hs with h1 h2 h3 h4
    · exact Or.inl h1
    · exact Or.inr (Or.inl h2)
    · exact Or.inr (Or.inr (Or.inl h3))
    · exact Or.inr (Or.inr (Or.inr h4))
    · exact absurd rfl hs

/-- Witness for C10: the token allergies is accepted and coerced to the
ItemKey member. -/
theorem C10_witness :
    ∃ st, CaseState.validate 0 []
        (some [("allergies", ItemState.mkDefault)]) = Except.ok st ∧
      List.Forall₂ (fun (p : String × ItemState) (q : ItemKey × ItemState) =>
        ItemKey.fromString p.1 = some q.1 ∧ p.2 = q.2)
        [("allergies", ItemState.mkDefault)] st.items :=
  (C10_items_key_coercion 0 [] [("allergies", ItemState.mkDefault)]).1
    (by decide)

end OpListAgent
